import Mathlib

/-!
Verification of the DataMind agent workflow engine
(`backend/services/agent_framework.py` and `backend/api/chat.py`).

The Python code is shallowly embedded:
* JSON-like payloads (Python dicts produced by the model API) become the
  inductive `Val`;
* the LangGraph `AgentState` TypedDict becomes the structure `AgentState`;
  every agent returns a partial update (`StateUpdate`) which the scheduler
  merges with `applyUpdate` (the `history` field carries the
  `operator.add` reducer, every other key is last-write-wins);
* external effects that cannot be computed inside the embedding (the
  Perplexity completion call, `json.loads`, `exec` of generated code,
  pandas aggregates such as `describe`/`memory_usage`/`corr`) are inputs:
  each run is parameterised by an `Env` of oracle outcomes, and the
  bounded dataframe sample `Sample` carries the observables the code
  reads from pandas (row count, per-column dtype/uniques/missing, the
  rounded correlation matrix in hundredths, the `describe` table).
All definitions are translated from the Python source; comments cite the
source lines they model.
-/

/-- JSON-like value: the payloads the agents read and write
(`Dict[str, Any]` in the source). Objects are association lists. -/
inductive Val where
  | str (s : String)
  | int (n : Int)
  | bool (b : Bool)
  | null
  | arr (xs : List Val)
  | obj (fields : List (String × Val))

/-- `pat` is a prefix of `l` (character-list view of Python `startswith`). -/
def charsStarts : List Char → List Char → Bool
  | [], _ => true
  | _ :: _, [] => false
  | p :: ps, c :: cs => p == c && charsStarts ps cs

/-- `pat` occurs somewhere inside `l` (Python `in` on strings). -/
def charsHas (pat : List Char) : List Char → Bool
  | [] => pat.isEmpty
  | c :: cs => charsStarts pat (c :: cs) || charsHas pat cs

/-- `pat` is a suffix of `l` (Python `endswith`). -/
def charsEnds (pat l : List Char) : Bool :=
  charsStarts pat.reverse l.reverse

/-- Substring test on strings, via the character-list model. -/
def strHas (s pat : String) : Bool :=
  charsHas pat.toList s.toList

/-- ASCII whitespace recognised by Python `str.strip`. -/
def isWsChar (c : Char) : Bool :=
  c == ' ' || c == '\n' || c == '\t' || c == '\r'

/-- Python `str.strip` on a character list. -/
def listTrim (l : List Char) : List Char :=
  ((l.dropWhile isWsChar).reverse.dropWhile isWsChar).reverse

/-- Python `str.strip`. -/
def strTrim (s : String) : String :=
  (listTrim s.toList).asString

/-- One step of Python `str.replace`, fuelled by the list length so the
recursion is structural. -/
def listReplaceFuel (pat rep : List Char) : Nat → List Char → List Char
  | 0, l => l
  | _ + 1, [] => []
  | fuel + 1, c :: cs =>
      if charsStarts pat (c :: cs) then
        rep ++ listReplaceFuel pat rep fuel (List.drop pat.length (c :: cs))
      else
        c :: listReplaceFuel pat rep fuel cs

/-- Python `str.replace` (all non-overlapping occurrences, left to right). -/
def strReplace (s pat rep : String) : String :=
  (listReplaceFuel pat.toList rep.toList s.toList.length s.toList).asString

/-- Python `str.lower` (ASCII). -/
def strLower (s : String) : String :=
  (s.toList.map Char.toLower).asString

/-- Python `"\n".join(xs)`. -/
def joinLines : List String → String
  | [] => ""
  | [x] => x
  | x :: y :: rest => x ++ "\n" ++ joinLines (y :: rest)

/-- Python `". ".join(xs)` used for the EDA summary. -/
def joinDotSpace : List String → String
  | [] => ""
  | [x] => x
  | x :: y :: rest => x ++ ". " ++ joinDotSpace (y :: rest)

/-- `os.path.basename`: everything after the last `/`. -/
def baseName (s : String) : String :=
  ((s.toList.reverse.takeWhile (fun c => c ≠ '/')).reverse).asString

/-- First-match association-list lookup (Python `dict.get`). -/
def alistGet {α : Type} (l : List (String × α)) (k : String) : Option α :=
  match l with
  | [] => none
  | (k', v) :: rest => if k' == k then some v else alistGet rest k

/-- Pandas dtype kind of a column, as the code distinguishes them
(`select_dtypes` buckets and `dtype.kind in 'if'`). -/
inductive DKind where
  | numeric
  | categorical
  | datetime
  | boolean
  | other
deriving DecidableEq

/-- Per-column observables of the bounded dataframe sample: what the code
reads off pandas for one column (`df[col].dtype`, `nunique`, `isna().sum`). -/
structure ColInfo where
  cname : String
  kind : DKind
  dtypeStr : String
  uniqueValues : Nat
  missing : Nat
deriving DecidableEq

/-- The slice of `df.describe()` the Analyst prompt reads
(`stats.get('min'/'max'/'mean')`), kept as display strings. -/
structure NumStats where
  smin : String
  smax : String
  smean : String
deriving DecidableEq

/-- The bounded, read-only dataframe sample. Pandas aggregates that cannot
be recomputed in the embedding are carried as observables, most importantly
`corr c1 c2`: the entry of `numeric_df.corr().round(2)` scaled to integer
hundredths (so the source's `abs(r) > 0.5` becomes `50 < |corr|`). -/
structure Sample where
  rows : Nat
  cols : List ColInfo
  memUsage : Nat
  duplicateRows : Nat
  corr : String → String → Int
  describeStats : List (String × NumStats)

/-- The dataset descriptor handed to the workflow
(`df_metadata_for_agents` in `chat.py`). -/
structure Dataset where
  s3_key : String
  filename : String
  columns : List String
  sample_df : Option Sample

/-- One entry of the EDA `correlations` list:
`{"columns": [c1, c2], "correlation": r}` with `r` in hundredths. -/
structure CorrEntry where
  c1 : String
  c2 : String
  r : Int
deriving DecidableEq

/-- `eda_results["dataset_info"]`. -/
structure EdaDatasetInfo where
  rows : Nat
  columns : Nat
  memory_usage : Nat
  missing_cells : Nat
  duplicate_rows : Nat
deriving DecidableEq

/-- `eda_results["column_types"]`. -/
structure EdaColumnTypes where
  numeric : Nat
  categorical : Nat
  datetime : Nat
  boolean : Nat
deriving DecidableEq

/-- `eda_results["columns"][col]`; `missing_pct` is the exact rational the
float `(missing / len(df)) * 100` approximates. -/
structure ColSummary where
  ctype : String
  unique_values : Nat
  missing : Nat
  missing_pct : ℚ
deriving DecidableEq

/-- The dict built by `EDAAgent.process` (lines 180-242): `correlations`
is `some` exactly when the key was inserted (more than one numeric column). -/
structure EdaResults where
  dataset_info : EdaDatasetInfo
  column_types : EdaColumnTypes
  columns : List (String × ColSummary)
  numeric_stats : List (String × NumStats)
  column_list : List String
  dtypes : List (String × String)
  correlations : Option (List CorrEntry)
  summary : String
deriving DecidableEq

/-- The dict `AnalystAgent.process` stores in `analysis_results`.
The success payload populates `insights`/`saved_figures`, the failure
payload populates `error`; `figure_urls` is added later by `chat.py`. -/
structure AnalysisPayload where
  insights : Option Val := none
  error : Option String := none
  code : String := ""
  status : String := ""
  saved_figures : Option (List (String × String)) := none
  figure_urls : Option (List (String × String)) := none

/-- The value part of one `create_state_update` call: the single
`{key: value}` pair an agent writes (the dynamic `key`/`value` arguments
of the Python helper, lines 54-72). -/
inductive SlotOutput where
  | researchOut (v : Val)
  | edaOut (v : EdaResults)
  | analysisOut (v : AnalysisPayload)
  | storyOut (v : Val)
  | errorOut (msg : String)

/-- One history entry
`{"agent": name, "timestamp": ..., "output": {key: value}}`. -/
structure HistoryEntry where
  agent : String
  timestamp : Nat
  output : SlotOutput

/-- The LangGraph `AgentState` TypedDict (lines 21-29). `history` has the
`operator.add` reducer annotation. -/
structure AgentState where
  query : String
  dataset : Dataset
  research_results : Option Val
  eda_results : Option EdaResults
  analysis_results : Option AnalysisPayload
  final_story : Option Val
  error : Option String
  history : List HistoryEntry

/-- A partial state update returned by an agent node: `none` means the key
is absent from the returned dict. -/
structure StateUpdate where
  research_results : Option Val := none
  eda_results : Option EdaResults := none
  analysis_results : Option AnalysisPayload := none
  final_story : Option Val := none
  error : Option String := none
  history : List HistoryEntry := []

/-- `Agent.create_state_update` (lines 54-72): the returned dict holds the
single written key plus `"history": state.get("history", []) + [entry]`. -/
def create_state_update (agent : String) (ts : Nat) (out : SlotOutput)
    (state : AgentState) : StateUpdate :=
  { research_results := match out with | .researchOut v => some v | _ => none
    eda_results := match out with | .edaOut v => some v | _ => none
    analysis_results := match out with | .analysisOut v => some v | _ => none
    final_story := match out with | .storyOut v => some v | _ => none
    error := match out with | .errorOut m => some m | _ => none
    history := state.history ++ [⟨agent, ts, out⟩] }

/-- LangGraph merge of one key: a key present in the update overwrites,
an absent key keeps the old value. -/
def mergeField {α : Type} (upd old : Option α) : Option α :=
  match upd with
  | some v => some v
  | none => old

/-- LangGraph merge of a node's update into the channel state: last value
wins for the plain keys, `operator.add` (list append) for `history`. -/
def applyUpdate (s : AgentState) (u : StateUpdate) : AgentState :=
  { query := s.query
    dataset := s.dataset
    research_results := mergeField u.research_results s.research_results
    eda_results := mergeField u.eda_results s.eda_results
    analysis_results := mergeField u.analysis_results s.analysis_results
    final_story := mergeField u.final_story s.final_story
    error := mergeField u.error s.error
    history := s.history ++ u.history }

/-- The update contributed by the identity node
`workflow.add_node("start", lambda state: state)` (line 637): it returns
the whole state dict, so every slot is written back with its current value
and `history` re-contributes the current history to the reducer. -/
def startUpdate (s : AgentState) : StateUpdate :=
  { research_results := s.research_results
    eda_results := s.eda_results
    analysis_results := s.analysis_results
    final_story := s.final_story
    error := s.error
    history := s.history }

/-- `initial_state` built by `execute_workflow` (lines 666-675). -/
def initial_state (q : String) (ds : Dataset) : AgentState :=
  { query := q
    dataset := ds
    research_results := none
    eda_results := none
    analysis_results := none
    final_story := none
    error := none
    history := [] }

/-- The `content` field of a completion response
(`r.json()["choices"][0]["message"]["content"]`, which the code observes
to be either a string or an already-decoded object). -/
inductive HttpContent where
  | textContent (raw : String)
  | jsonContent (v : Val)

/-- Outcome of the single `client.post` + `raise_for_status` pair:
`fail` covers timeouts, connection errors and non-2xx responses (any
exception escaping the call), carrying the Python exception text. -/
inductive HttpOutcome where
  | ok (content : HttpContent)
  | fail (msg : String)

/-- Outcome of `exec(analysis_code, {}, local_vars)` on the generated
code, together with the matplotlib figure state it leaves behind:
`resultsVar` is what `local_vars.get("results")` yields afterwards, and
`openFigs` the number of figures open (`plt.get_fignums()`) when the
branch is reached. -/
inductive ExecOutcome where
  | execOk (resultsVar : Option Val) (openFigs : Nat)
  | execSyntaxError (msg : String) (openFigs : Nat)
  | execError (msg : String) (openFigs : Nat)

namespace ResearchAgent

/-- `ResearchAgent.process` (lines 99-152). `pj` is the `json.loads`
oracle (`none` = parse failure), `http` the completion-call outcome.
Besides the state update, the number of completion requests issued is
returned: the method has a single `client.post` call site and no loop,
so every invocation issues exactly one request (the request is also
counted when it is the call itself that raised). -/
def process (pj : String → Option Val) (http : HttpOutcome) (ts : Nat)
    (state : AgentState) : StateUpdate × Nat :=
  match http with
  | .fail msg =>
      -- lines 148-150: any exception is logged and converted to an error
      -- marker "Research failed: {e}".
      (create_state_update "research" ts (.errorOut ("Research failed: " ++ msg)) state, 1)
  | .ok (.jsonContent v) =>
      -- line 143: content already parsed.
      (create_state_update "research" ts (.researchOut v) state, 1)
  | .ok (.textContent raw) =>
      match pj raw with
      | some v =>
          -- line 138: successful json.loads.
          (create_state_update "research" ts (.researchOut v) state, 1)
      | none =>
          -- lines 139-141: parse failure wraps the raw text as summary.
          (create_state_update "research" ts
            (.researchOut (.obj [("summary", .str raw)])) state, 1)

end ResearchAgent

/-- The numeric-column name list
`numeric_df = df.select_dtypes(include=['number'])` (line 217),
in dataframe column order. -/
def numericColNames (s : Sample) : List String :=
  (s.cols.filter (fun c => c.kind == DKind.numeric)).map (fun c => c.cname)

/-- The inner loop `for col2 in corr_matrix.columns` (lines 224-229) for a
fixed `col1`: appends `{"columns": [col1, col2], "correlation": r}` for
every distinct `col2` with `abs(r) > 0.5` on the rounded matrix. -/
def corrRow (corr : String → String → Int) (c1 : String) :
    List String → List CorrEntry
  | [] => []
  | c2 :: rest =>
      (if c1 ≠ c2 ∧ 50 < (corr c1 c2).natAbs then [⟨c1, c2, corr c1 c2⟩] else [])
        ++ corrRow corr c1 rest

/-- The outer loop `for col1 in corr_matrix.columns` (line 223); `all` is
the full column list the inner loop ranges over. -/
def corrEntriesAux (corr : String → String → Int) (all : List String) :
    List String → List CorrEntry
  | [] => []
  | c1 :: rest => corrRow corr c1 all ++ corrEntriesAux corr all rest

/-- The `correlations` list built at lines 219-229: all ordered pairs of
distinct numeric columns whose rounded correlation exceeds 0.5 in
absolute value. -/
def corrEntries (corr : String → String → Int) (ncols : List String) :
    List CorrEntry :=
  corrEntriesAux corr ncols ncols

/-- `select_dtypes` bucket sizes (lines 191-196). -/
def kindCount (s : Sample) (k : DKind) : Nat :=
  (s.cols.filter (fun c => c.kind == k)).length

/-- Total missing cells `df.isna().sum().sum()` (line 186). -/
def missingCells (s : Sample) : Nat :=
  (s.cols.map (fun c => c.missing)).sum

/-- The readability summary appended at lines 234-242. -/
def edaSummaryOf (s : Sample) : String :=
  let parts :=
    [ "Dataset has " ++ toString s.rows ++ " rows and "
        ++ toString s.cols.length ++ " columns",
      "Column types: " ++ toString (kindCount s DKind.numeric) ++ " numeric, "
        ++ toString (kindCount s DKind.categorical) ++ " categorical" ]
  let parts := parts ++
    (if 0 < missingCells s then
      [ "Contains " ++ toString (missingCells s) ++ " missing values" ]
     else [])
  joinDotSpace parts

/-- The full `eda_results` dict (lines 180-242): base profile, then the
`correlations` key inserted only when there is more than one numeric
column, then the `summary` key. -/
def edaResultsOf (s : Sample) : EdaResults :=
  let ncols := numericColNames s
  { dataset_info :=
      { rows := s.rows
        columns := s.cols.length
        memory_usage := s.memUsage
        missing_cells := missingCells s
        duplicate_rows := s.duplicateRows }
    column_types :=
      { numeric := kindCount s DKind.numeric
        categorical := kindCount s DKind.categorical
        datetime := kindCount s DKind.datetime
        boolean := kindCount s DKind.boolean }
    columns := s.cols.map (fun c =>
      (c.cname,
        { ctype := c.dtypeStr
          unique_values := c.uniqueValues
          missing := c.missing
          missing_pct := ((c.missing : ℚ) / (s.rows : ℚ)) * 100 }))
    numeric_stats := s.describeStats
    column_list := s.cols.map (fun c => c.cname)
    dtypes := s.cols.map (fun c => (c.cname, c.dtypeStr))
    correlations :=
      if 1 < ncols.length then some (corrEntries s.corr ncols) else none
    summary := edaSummaryOf s }

namespace EDAAgent

/-- `EDAAgent.process` (lines 156-248). The profiling is purely local
and deterministic — the method has no HTTP client use, so unlike the
other agents it takes no completion oracle; its output is a function of
the sample alone. `fault` models an exception raised by the pandas
profiling work inside the `try` (lines 246-248 convert it to an error
marker); `none` means the computation succeeded. -/
def process (fault : Option String) (ts : Nat) (state : AgentState) :
    StateUpdate :=
  match state.dataset.sample_df with
  | none =>
      -- lines 161-162: missing sample short-circuits to an error update.
      create_state_update "eda" ts (.errorOut "No dataframe sample provided for EDA") state
  | some s =>
      match fault with
      | some msg =>
          -- lines 246-248: any exception becomes "EDA failed: {e}".
          create_state_update "eda" ts (.errorOut ("EDA failed: " ++ msg)) state
      | none =>
          create_state_update "eda" ts (.edaOut (edaResultsOf s)) state

end EDAAgent

/-- Python `"; ".join(xs)`. -/
def joinSemicolon : List String → String
  | [] => ""
  | [x] => x
  | x :: y :: rest => x ++ "; " ++ joinSemicolon (y :: rest)

/-- Helper for `:.2f` rendering: two-digit fractional part. -/
def twoDigits (n : Nat) : String :=
  (if n < 10 then "0" else "") ++ toString n

/-- Python `f"{r:.2f}"` on a correlation held in integer hundredths. -/
def formatHundredths (r : Int) : String :=
  (if r < 0 then "-" else "")
    ++ toString (r.natAbs / 100) ++ "." ++ twoDigits (r.natAbs % 100)

/-- One line of the Analyst prompt's `column_info` (lines 275-288). -/
def columnInfoLine (eda : EdaResults) (c : ColInfo) : String :=
  let colType := (alistGet eda.dtypes c.cname).getD c.dtypeStr
  if c.kind == DKind.numeric then
    -- `df[col].dtype.kind in 'if'`: integer or float columns.
    let st := alistGet eda.numeric_stats c.cname
    "- " ++ c.cname ++ ": " ++ colType
      ++ " (min: " ++ (match st with | some t => t.smin | none => "N/A")
      ++ ", max: " ++ (match st with | some t => t.smax | none => "N/A")
      ++ ", mean: " ++ (match st with | some t => t.smean | none => "N/A") ++ ")"
  else
    let uc := match alistGet eda.columns c.cname with
      | some cs => cs.unique_values
      | none => c.uniqueValues
    "- " ++ c.cname ++ ": " ++ colType ++ " (unique values: " ++ toString uc ++ ")"

/-- One rendered correlation line of the Analyst prompt (line 297). -/
def corrLine (c : CorrEntry) : String :=
  "- " ++ c.c1 ++ " and " ++ c.c2 ++ " have correlation of " ++ formatHundredths c.r

/-- `correlation_info` (lines 292-299): rendered from the FIRST three
entries of the correlations list (`[:3]` on the list as built, without
any sorting). -/
def correlationInfo (eda : EdaResults) : String :=
  match eda.correlations with
  | some l =>
      if l ≠ [] then
        "Notable correlations:\n" ++ joinLines ((l.take 3).map corrLine)
      else ""
  | none => ""

/-- Opening of `code_gen_prompt` up to the interpolated EDA summary. -/
def promptHead (query : String) : String :=
  "\n            Write Python code to analyze this DataFrame that answers: "
  ++ query
  ++ "\n            \n            DataFrame summary: "

/-- Fixed tail of `code_gen_prompt` after the correlation section
(requirements and the example block); the escapes `\x7b`/`\x7d` are the
literal braces the doubled `{{ }}` of the f-string render to. -/
def promptRequirements : String :=
  "\n            \n            Your solution must:"
  ++ "\n            - Use pandas and numpy to analyze the dataframe named 'df'"
  ++ "\n            - Be careful when dealing with dates and times."
  ++ "\n            - Create a visualization using matplotlib or seaborn"
  ++ "\n            - Store visualization as base64 strings"
  ++ "\n            - Create a 'results' dictionary with insights"
  ++ "\n            \n            IMPORTANT: Be very careful with curly braces in f-strings. Use double curly braces \x7b \x7d to escape them in the generated code."
  ++ "\n            \n            Example output format:"
  ++ "\n            ```python"
  ++ "\n            import pandas as pd"
  ++ "\n            import matplotlib.pyplot as plt"
  ++ "\n            import seaborn as sns"
  ++ "\n            import base64"
  ++ "\n            from io import BytesIO"
  ++ "\n            \n            # Analysis code here..."
  ++ "\n            \n            # Create visualization"
  ++ "\n            plt.figure(figsize=(10, 6))"
  ++ "\n            # ... plotting code ..."
  ++ "\n            \n            # Convert plot to base64"
  ++ "\n            buffer = BytesIO()"
  ++ "\n            plt.savefig(buffer, format='png')"
  ++ "\n            buffer.seek(0)"
  ++ "\n            plot_data = base64.b64encode(buffer.getvalue()).decode('utf-8')"
  ++ "\n            \n            # Store results"
  ++ "\n            results = \x7b"
  ++ "\n                \"key_insight\": \"Your main finding here\","
  ++ "\n                \"metrics\": \x7b\"metric1\": value1, \"metric2\": value2\x7d,"
  ++ "\n                \"plot\": plot_data"
  ++ "\n            \x7d"
  ++ "\n            ```"
  ++ "\n            "

/-- `code_gen_prompt` (lines 301-347): summary, per-column details,
correlation section, then the fixed requirements/example tail. -/
def codeGenPrompt (query : String) (eda : EdaResults) (cols : List ColInfo) : String :=
  let column_details := joinLines (cols.map (columnInfoLine eda))
  promptHead query
  ++ eda.summary
  ++ "\n            \n            DataFrame columns:\n            "
  ++ column_details
  ++ "\n            \n            "
  ++ correlationInfo eda
  ++ promptRequirements

/-- Markdown fence stripping (lines 367-373): strip, then drop a leading
` ```python `, a leading ` ``` `, a trailing ` ``` `, re-stripping after
each. -/
def stripCodeFences (raw : String) : String :=
  let c := listTrim raw.toList
  let c := if charsStarts "```python".toList c then listTrim (c.drop 9) else c
  let c := if charsStarts "```".toList c then listTrim (c.drop 3) else c
  let c := if charsEnds "```".toList c then listTrim (c.take (c.length - 3)) else c
  c.asString

/-- The best-effort `%`-interpolation fix (lines 376-383): when the code
contains `%` but no `%%`, rewrite `%s`/`%d`/`%f` to literal `{}` braces. -/
def percentFix (code : String) : String :=
  if strHas code "%" ∧ ¬ strHas code "%%" then
    strReplace (strReplace (strReplace code "%s" "\x7b\x7d") "%d" "\x7b\x7d") "%f" "\x7b\x7d"
  else code

/-- The shared figures area. -/
def figuresDir : String := "figures"

/-- Inline-encoded figures persisted from the `results` dict
(lines 431-450): every string entry starting with `data:image`, plus the
`plot` key, is written to `figures/{timestamp}_{key}.png`. (In Python a
non-string value under the `plot` key would raise on the `','  in value`
test and divert the whole block to the failure branch; decode errors are
logged and the entry skipped — both corners are outside the claims and
the oracle supplies only well-formed strings.) -/
def savedFromResults (results : Val) (figTs : String) : List (String × String) :=
  match results with
  | .obj fields =>
      fields.filterMap (fun kv =>
        match kv with
        | (k, .str s) =>
            if charsStarts "data:image".toList s.toList || k == "plot" then
              some (k, figuresDir ++ "/" ++ figTs ++ "_" ++ k ++ ".png")
            else none
        | _ => none)
  | _ => []

/-- Open matplotlib figures persisted at lines 452-459:
`figure_{i} -> figures/{timestamp}_figure_{i}.png`. -/
def openFigFiles (figTs : String) (n : Nat) : List (String × String) :=
  (List.range n).map (fun i =>
    ("figure_" ++ toString i,
      figuresDir ++ "/" ++ figTs ++ "_figure_" ++ toString i ++ ".png"))

/-- Runtime-error message specialisation (lines 489-491). -/
def runtimeErrorMsg (msg : String) : String :=
  if strHas (strLower msg) "format" then
    "String formatting error: " ++ msg
      ++ ". This is likely due to an issue with f-strings or string formatting."
  else msg

/-- What one `AnalystAgent.process` invocation produces: the state update,
the number of completion requests issued, the matplotlib figures still
open when the method returns (the resource of claim C6), and the
code-generation prompt it sent (when the call was reached). -/
structure AnalystResult where
  update : StateUpdate
  requests : Nat
  openFiguresAfter : Nat
  prompt : Option String := none

namespace AnalystAgent

/-- `AnalystAgent.process` (lines 252-503). `execO` is the oracle for
`exec(analysis_code, {}, local_vars)` as a function of the code text.
Success builds the `status: success` payload and then closes every figure
(`plt.close('all')`, line 464); the two `except` arms build the
`status: failed` payload and return WITHOUT closing figures. A missing
`eda_results` slot (upstream error) raises `AttributeError` on
`None.get` at line 277 before the completion call, caught by the outer
handler. (For a zero-column frame the same `None` instead raises
`TypeError` at line 294; the embedding uses the attribute-error text for
both.) -/
def process (execO : String → ExecOutcome) (http : HttpOutcome)
    (figTs : String) (ts : Nat) (state : AgentState) : AnalystResult :=
  match state.dataset.sample_df with
  | none =>
      -- lines 259-260.
      ⟨create_state_update "analysis" ts
        (.errorOut "No dataframe sample provided for analysis") state, 0, 0, none⟩
  | some sample =>
      match state.eda_results with
      | none =>
          -- lines 277/294 on a None slot → outer handler, lines 499-501.
          ⟨create_state_update "analysis" ts
            (.errorOut "Analysis failed: 'NoneType' object has no attribute 'get'")
            state, 0, 0, none⟩
      | some eda =>
          let prompt := codeGenPrompt state.query eda sample.cols
          match http with
          | .fail msg =>
              -- post/raise_for_status raised → outer handler, lines 499-501.
              ⟨create_state_update "analysis" ts
                (.errorOut ("Analysis failed: " ++ msg)) state, 1, 0, some prompt⟩
          | .ok (.jsonContent _) =>
              -- `.strip()` on a non-string content raises AttributeError.
              ⟨create_state_update "analysis" ts
                (.errorOut "Analysis failed: 'dict' object has no attribute 'strip'")
                state, 1, 0, some prompt⟩
          | .ok (.textContent raw) =>
              let analysis_code := percentFix (stripCodeFences raw)
              match execO analysis_code with
              | .execOk resultsVar nFigs =>
                  let results := resultsVar.getD (Val.str "No results found")
                  let image_paths :=
                    savedFromResults results figTs ++ openFigFiles figTs nFigs
                  -- line 464: plt.close('all') → no figure stays open.
                  ⟨create_state_update "analysis" ts
                    (.analysisOut
                      { insights := some results
                        code := analysis_code
                        status := "success"
                        saved_figures := some image_paths }) state, 1, 0, some prompt⟩
              | .execSyntaxError msg nFigs =>
                  -- lines 476-483: no plt.close before the return.
                  ⟨create_state_update "analysis" ts
                    (.analysisOut
                      { error := some ("Syntax error: " ++ msg)
                        code := analysis_code
                        status := "failed" }) state, 1, nFigs, some prompt⟩
              | .execError msg nFigs =>
                  -- lines 484-497: no plt.close before the return.
                  ⟨create_state_update "analysis" ts
                    (.analysisOut
                      { error := some (runtimeErrorMsg msg)
                        code := analysis_code
                        status := "failed" }) state, 1, nFigs, some prompt⟩

end AnalystAgent

/-- Approximation of Python `str()` on a decoded-JSON value, used only to
interpolate payloads into prompt text (no claim depends on how containers
render). -/
def Val.pyStr : Val → String
  | .str s => s
  | .int n => toString n
  | .bool b => if b then "True" else "False"
  | .null => "None"
  | .arr _ => "[...]"
  | .obj _ => "\x7b...\x7d"

/-- Stable-descending insertion for `sorted(..., key=abs, reverse=True)`:
an earlier entry stays before later entries of equal key. -/
def insertByAbsDesc (x : CorrEntry) : List CorrEntry → List CorrEntry
  | [] => [x]
  | y :: rest =>
      if x.r.natAbs < y.r.natAbs then y :: insertByAbsDesc x rest
      else x :: y :: rest

/-- `sorted(correlations, key=lambda x: abs(x["correlation"]), reverse=True)`
(lines 524-528). -/
def sortByAbsDesc (l : List CorrEntry) : List CorrEntry :=
  l.foldr insertByAbsDesc []

/-- `correlation_insights` of the Story prompt (lines 522-533): unlike the
Analyst, the Story agent DOES sort by absolute value before taking 3. -/
def storyCorrInsights (eda : EdaResults) : String :=
  match eda.correlations with
  | some l =>
      if l ≠ [] then
        "Notable correlations: " ++
          joinSemicolon (((sortByAbsDesc l).take 3).map (fun c =>
            c.c1 ++ " and " ++ c.c2 ++ " (" ++ formatHundredths c.r ++ ")"))
      else ""
  | none => ""

/-- `story_prompt` (lines 536-559). -/
def storyPrompt (query : String) (research : Val) (eda : EdaResults)
    (analysis : AnalysisPayload) : String :=
  let researchSummary :=
    match research with
    | .obj fields => ((alistGet fields "summary").map Val.pyStr).getD "No research available"
    | _ => "No research available"
  let analysisInsights :=
    (analysis.insights.map Val.pyStr).getD "No analysis available"
  "\n            Create a comprehensive data story that answers the query: \"" ++ query
  ++ "\"\n            \n            Use these inputs:"
  ++ "\n            \n            1. BACKGROUND RESEARCH:\n            " ++ researchSummary
  ++ "\n            \n            2. DATA PROFILE:\n            " ++ eda.summary
  ++ "\n            " ++ storyCorrInsights eda
  ++ "\n            \n            3. DATA ANALYSIS:\n            " ++ analysisInsights
  ++ "\n            \n            Your data story should:"
  ++ "\n            - Start with a clear executive summary"
  ++ "\n            - Include key findings from the analysis"
  ++ "\n            - Connect the research context to the data insights"
  ++ "\n            - Be structured and easy to follow"
  ++ "\n            - Suggest potential next steps or further analyses"
  ++ "\n            \n            Output a JSON object exactly matching the requested schema format.\n            "

namespace DataStoryAgent

/-- `DataStoryAgent.process` (lines 507-597). When an upstream slot is
still `None` (after an upstream error) the first `.get` on it raises
`AttributeError` inside the `try` — `eda_results` first (line 519), then
`research_results` (line 542), then `analysis_results` (line 549) — and
the outer handler converts it to the error marker. JSON-parse failure of
the story content degrades to an error-shaped story stored in the
`final_story` slot (lines 582-587), not an error marker. -/
def process (pj : String → Option Val) (http : HttpOutcome) (ts : Nat)
    (state : AgentState) : StateUpdate × Nat :=
  match state.eda_results with
  | none =>
      (create_state_update "story" ts
        (.errorOut "Story generation failed: 'NoneType' object has no attribute 'get'")
        state, 0)
  | some _ =>
      match state.research_results with
      | none =>
          (create_state_update "story" ts
            (.errorOut "Story generation failed: 'NoneType' object has no attribute 'get'")
            state, 0)
      | some _ =>
          match state.analysis_results with
          | none =>
              (create_state_update "story" ts
                (.errorOut "Story generation failed: 'NoneType' object has no attribute 'get'")
                state, 0)
          | some _ =>
              match http with
              | .fail msg =>
                  (create_state_update "story" ts
                    (.errorOut ("Story generation failed: " ++ msg)) state, 1)
              | .ok (.jsonContent v) =>
                  (create_state_update "story" ts (.storyOut v) state, 1)
              | .ok (.textContent raw) =>
                  match pj raw with
                  | some v =>
                      (create_state_update "story" ts (.storyOut v) state, 1)
                  | none =>
                      (create_state_update "story" ts
                        (.storyOut (.obj
                          [("error", .str "Failed to parse story JSON"),
                           ("raw_content", .str raw)])) state, 1)

end DataStoryAgent

/-- The per-run oracle environment: everything one pipeline run observes
from outside the embedded code (completion outcomes, `json.loads`,
`exec`, timestamps, which of the two concurrent roots completes first,
the caller's base URL, a mid-stream serialisation fault, and the index at
which the caller disconnects). -/
structure Env where
  parseJson : String → Option Val
  researchHttp : HttpOutcome
  edaFault : Option String
  analysisHttp : HttpOutcome
  analysisExec : String → ExecOutcome
  storyHttp : HttpOutcome
  figTs : String
  ts : Nat → Nat
  researchFirst : Bool
  baseUrl : String
  workflowFault : Option (Nat × String)
  disconnectAt : Option Nat

/-- State after the `start` identity node ran. -/
def runS1 (_env : Env) (q : String) (ds : Dataset) : AgentState :=
  applyUpdate (initial_state q ds) (startUpdate (initial_state q ds))

/-- The research node's update. Both root nodes read the same superstep
snapshot `runS1` — the compiled graph (lines 639-640) runs them
concurrently from it. -/
def researchU (env : Env) (q : String) (ds : Dataset) : StateUpdate :=
  (ResearchAgent.process env.parseJson env.researchHttp (env.ts 1)
    (runS1 env q ds)).1

/-- The eda node's update, from the same snapshot as `researchU`. -/
def edaU (env : Env) (q : String) (ds : Dataset) : StateUpdate :=
  EDAAgent.process env.edaFault (env.ts 2) (runS1 env q ds)

/-- State after the first root completed (completion order from `env`). -/
def runS2 (env : Env) (q : String) (ds : Dataset) : AgentState :=
  if env.researchFirst then applyUpdate (runS1 env q ds) (researchU env q ds)
  else applyUpdate (runS1 env q ds) (edaU env q ds)

/-- State after both roots completed. -/
def runS3 (env : Env) (q : String) (ds : Dataset) : AgentState :=
  if env.researchFirst then applyUpdate (runS2 env q ds) (edaU env q ds)
  else applyUpdate (runS2 env q ds) (researchU env q ds)

/-- The analysis node's outcome: the edge `["research","eda"] → analysis`
(line 642) is unconditional, so the node runs as soon as both roots
finished, whatever they wrote. -/
def analysisR (env : Env) (q : String) (ds : Dataset) : AnalystResult :=
  AnalystAgent.process env.analysisExec env.analysisHttp env.figTs (env.ts 3)
    (runS3 env q ds)

/-- The analysis node's update. -/
def analysisU (env : Env) (q : String) (ds : Dataset) : StateUpdate :=
  (analysisR env q ds).update

/-- State after the analysis node. -/
def runS4 (env : Env) (q : String) (ds : Dataset) : AgentState :=
  applyUpdate (runS3 env q ds) (analysisU env q ds)

/-- The story node's update: edge `analysis → story` (line 643), equally
unconditional. -/
def storyU (env : Env) (q : String) (ds : Dataset) : StateUpdate :=
  (DataStoryAgent.process env.parseJson env.storyHttp (env.ts 4)
    (runS4 env q ds)).1

/-- Final state of the run. -/
def runS5 (env : Env) (q : String) (ds : Dataset) : AgentState :=
  applyUpdate (runS4 env q ds) (storyU env q ds)

/-- The chain of states one run passes through (clamped at the final
state), the object of the slot/history invariants. -/
def stateAt (env : Env) (q : String) (ds : Dataset) : Nat → AgentState
  | 0 => initial_state q ds
  | 1 => runS1 env q ds
  | 2 => runS2 env q ds
  | 3 => runS3 env q ds
  | 4 => runS4 env q ds
  | _ + 5 => runS5 env q ds

/-- The `{node: update}` events `agent_graph.astream` yields, in
completion order. -/
def runEvents (env : Env) (q : String) (ds : Dataset) :
    List (String × StateUpdate) :=
  ("start", startUpdate (initial_state q ds)) ::
    (if env.researchFirst then
      [("research", researchU env q ds), ("eda", edaU env q ds)]
     else
      [("eda", edaU env q ds), ("research", researchU env q ds)])
    ++ [("analysis", analysisU env q ds), ("story", storyU env q ds)]

/-- One outbound server-sent event. `data` is a forwarded
`data: {"data": {node: update}, "timestamp": ...}\n\n` event, `errData` a
`data: {"error"/... : msg}\n\n` event, `storyData` the formatted-story
chat message `event_generator` appends, and `done` the sentinel
`event: done\ndata: {}\n\n`. -/
inductive Chunk where
  | data (node : String) (u : StateUpdate)
  | errData (msg : String)
  | storyData (v : Val)
  | done

/-- Is this chunk the sentinel? -/
def Chunk.isDone : Chunk → Bool
  | .done => true
  | _ => false

/-- Number of sentinel events in a stream. -/
def sentinelCount (l : List Chunk) : Nat :=
  l.countP Chunk.isDone

/-- `execute_workflow`'s streaming part (lines 677-698) over the event
sequence the graph yields: each event is wrapped as a data chunk; when an
exception interrupts the iteration after `k` events (`faultAt = some
(k, msg)`, e.g. a serialisation error), one error event is emitted; both
paths end by yielding the sentinel exactly once. -/
def execute_workflow (events : List (String × StateUpdate))
    (faultAt : Option (Nat × String)) : List Chunk :=
  match faultAt with
  | none =>
      events.map (fun e => Chunk.data e.1 e.2) ++ [Chunk.done]
  | some (k, msg) =>
      (events.take k).map (fun e => Chunk.data e.1 e.2)
        ++ [Chunk.errData msg, Chunk.done]

/-- The figure-URL enrichment `event_generator` applies to analysis data
events (chat.py lines 177-189): when the analysis payload carries
`saved_figures`, a `figure_urls` mapping to
`{base_url}figure/{basename}` is added. Other chunks pass through (a
non-`data:`-prefixed chunk — the sentinel — is yielded untouched). -/
def transformChunk (baseUrl : String) : Chunk → Chunk
  | .data node u =>
      if node == "analysis" then
        match u.analysis_results with
        | some p =>
            match p.saved_figures with
            | some figs =>
                let urls := figs.map (fun kv =>
                  (kv.1, baseUrl ++ "figure/" ++ baseName kv.2))
                let p' := { p with figure_urls := some urls }
                .data node { u with analysis_results := some p' }
            | none => .data node u
        | none => .data node u
      else .data node u
  | c => c

/-- `final_story` capture (chat.py lines 167-174): the branch testing
`"final_story" in data["data"]` compares against the node name and never
fires for this graph's nodes; the live branch reads
`data["data"]["story"]["final_story"]`. -/
def capturedStory (story : Option Val) : Chunk → Option Val
  | .data node u =>
      if node == "story" then
        match u.final_story with
        | some v => some v
        | none => story
      else story
  | _ => story

/-- Auxiliary: `some (n+1)` counts down the remaining negative
`is_disconnected` polls; `none` = the client never disconnects. -/
def tickDisconnect : Option Nat → Option Nat
  | none => none
  | some n => some (n - 1)

/-- The `async for` loop of `event_generator` (chat.py lines 157-205):
before each chunk the disconnect flag is polled (`some 0` = disconnected
now → `break`); each forwarded chunk is the transformed one, and the
story payload is tracked across iterations. Returns the forwarded chunks
and the captured story. -/
def egLoop (baseUrl : String) (dis : Option Nat) (story : Option Val) :
    List Chunk → List Chunk × Option Val
  | [] => ([], story)
  | c :: cs =>
      if dis == some 0 then ([], story)
      else
        let story' := capturedStory story c
        let rest := egLoop baseUrl (tickDisconnect dis) story' cs
        (transformChunk baseUrl c :: rest.1, rest.2)

/-- `event_generator` (chat.py lines 151-235): forwards the inner stream
(including the inner sentinel, which does not start with `data: ` and is
passed through unchanged), then — even after a disconnect `break` —
yields the formatted story as one more data event if one was captured
(lines 207-223), and finally ALWAYS yields its own sentinel in the
`finally` block (lines 232-235). -/
def event_generator (baseUrl : String) (chunks : List Chunk)
    (dis : Option Nat) : List Chunk :=
  let r := egLoop baseUrl dis none chunks
  r.1
    ++ (match r.2 with
        | some v => [Chunk.storyData v]
        | none => [])
    ++ [Chunk.done]

/-- The stream `execute_workflow` produces for one run. -/
def workflowStream (env : Env) (q : String) (ds : Dataset) : List Chunk :=
  execute_workflow (runEvents env q ds) env.workflowFault

/-- The stream the caller actually receives from the HTTP boundary. -/
def callerStream (env : Env) (q : String) (ds : Dataset) : List Chunk :=
  event_generator env.baseUrl (workflowStream env q ds) env.disconnectAt

/-! ### Substring lemmas for the containment claims -/

theorem charsStarts_append_self : ∀ (p t : List Char), charsStarts p (p ++ t) = true := by
  intro p t
  induction p with
  | nil => rfl
  | cons c cs ih => simp [charsStarts, ih]

theorem charsHas_nil_pat : ∀ l : List Char, charsHas [] l = true := by
  intro l
  cases l <;> simp [charsHas, charsStarts, List.isEmpty]

theorem charsHas_here : ∀ (p t : List Char), charsHas p (p ++ t) = true := by
  intro p t
  cases p with
  | nil => exact charsHas_nil_pat t
  | cons c cs =>
      have h := charsStarts_append_self (c :: cs) t
      rw [List.cons_append] at h
      rw [List.cons_append]
      simp [charsHas, h]

theorem charsHas_cons {p l : List Char} (c : Char) (h : charsHas p l = true) :
    charsHas p (c :: l) = true := by
  simp [charsHas, h]

theorem charsHas_extendL {p l : List Char} (s : List Char) (h : charsHas p l = true) :
    charsHas p (s ++ l) = true := by
  induction s with
  | nil => exact h
  | cons c cs ih => exact charsHas_cons c ih

theorem charsStarts_extend : ∀ (p s t : List Char),
    charsStarts p s = true → charsStarts p (s ++ t) = true := by
  intro p
  induction p with
  | nil => intro s t _; rfl
  | cons c cs ih =>
      intro s t h
      cases s with
      | nil => simp [charsStarts] at h
      | cons d ds =>
          rw [List.cons_append]
          simp only [charsStarts, Bool.and_eq_true] at h ⊢
          exact ⟨h.1, ih ds t h.2⟩

theorem charsHas_extendR : ∀ (p s t : List Char),
    charsHas p s = true → charsHas p (s ++ t) = true := by
  intro p s
  induction s with
  | nil =>
      intro t h
      simp [charsHas, List.isEmpty_iff] at h
      subst h
      exact charsHas_nil_pat t
  | cons c cs ih =>
      intro t h
      rw [List.cons_append]
      simp only [charsHas, Bool.or_eq_true] at h ⊢
      rcases h with h | h
      · exact Or.inl (charsStarts_extend _ _ t h)
      · exact Or.inr (ih t h)

theorem strHas_self (p : String) : strHas p p = true := by
  unfold strHas
  have := charsHas_here p.toList []
  simpa using this

theorem strHas_extendR {s p : String} (t : String) (h : strHas s p = true) :
    strHas (s ++ t) p = true := by
  unfold strHas at h ⊢
  simpa [String.toList, String.data_append] using charsHas_extendR p.data s.data t.data h

theorem strHas_extendL {t p : String} (s : String) (h : strHas t p = true) :
    strHas (s ++ t) p = true := by
  unfold strHas at h ⊢
  simpa [String.toList, String.data_append] using charsHas_extendL s.toList h

theorem strHas_joinLines {x : String} :
    ∀ {xs : List String}, x ∈ xs → strHas (joinLines xs) x = true := by
  intro xs
  induction xs with
  | nil => intro h; cases h
  | cons y rest ih =>
      intro h
      cases rest with
      | nil =>
          rcases List.mem_singleton.mp h with rfl
          exact strHas_self x
      | cons z zs =>
          rcases List.mem_cons.mp h with rfl | h
          · exact strHas_extendR _ (strHas_extendR _ (strHas_self x))
          · exact strHas_extendL _ (ih h)

/-! ### Slot monotonicity machinery -/

/-- `t` keeps every result slot `s` had (with the same value) and at
least as long a history: the invariant of §3 of the spec. -/
def slotsPreserved (s t : AgentState) : Prop :=
  (∀ v, s.research_results = some v → t.research_results = some v) ∧
  (∀ v, s.eda_results = some v → t.eda_results = some v) ∧
  (∀ v, s.analysis_results = some v → t.analysis_results = some v) ∧
  (∀ v, s.final_story = some v → t.final_story = some v) ∧
  s.history.length ≤ t.history.length

theorem slotsPreserved_refl (s : AgentState) : slotsPreserved s s :=
  ⟨fun _ h => h, fun _ h => h, fun _ h => h, fun _ h => h, Nat.le_refl _⟩

theorem slotsPreserved_trans {a b c : AgentState}
    (h1 : slotsPreserved a b) (h2 : slotsPreserved b c) : slotsPreserved a c :=
  ⟨fun v h => h2.1 v (h1.1 v h),
   fun v h => h2.2.1 v (h1.2.1 v h),
   fun v h => h2.2.2.1 v (h1.2.2.1 v h),
   fun v h => h2.2.2.2.1 v (h1.2.2.2.1 v h),
   Nat.le_trans h1.2.2.2.2 h2.2.2.2.2⟩

theorem mergeField_keeps {α : Type} {u old : Option α} {v : α}
    (hcase : u = none ∨ u = old ∨ old = none)
    (h : old = some v) : mergeField u old = some v := by
  rcases hcase with hu | hu | hu
  · rw [hu]; exact h
  · rw [hu, h]; rfl
  · rw [hu] at h; cases h

/-- A merge step preserves the slots provided the update either omits a
slot, rewrites its current value, or writes a slot that was still unset;
history can only grow under the `operator.add` reducer. -/
theorem applyUpdate_preserves (s : AgentState) (u : StateUpdate)
    (hr : u.research_results = none ∨ u.research_results = s.research_results
        ∨ s.research_results = none)
    (he : u.eda_results = none ∨ u.eda_results = s.eda_results
        ∨ s.eda_results = none)
    (ha : u.analysis_results = none ∨ u.analysis_results = s.analysis_results
        ∨ s.analysis_results = none)
    (hf : u.final_story = none ∨ u.final_story = s.final_story
        ∨ s.final_story = none) :
    slotsPreserved s (applyUpdate s u) := by
  refine ⟨fun v h => ?_, fun v h => ?_, fun v h => ?_, fun v h => ?_, ?_⟩
  · exact mergeField_keeps hr h
  · exact mergeField_keeps he h
  · exact mergeField_keeps ha h
  · exact mergeField_keeps hf h
  · show s.history.length ≤ (s.history ++ u.history).length
    rw [List.length_append]
    exact Nat.le_add_right _ _

/-! ### Shape of each node's update -/

theorem researchU_slots (env : Env) (q : String) (ds : Dataset) :
    (researchU env q ds).eda_results = none ∧
    (researchU env q ds).analysis_results = none ∧
    (researchU env q ds).final_story = none := by
  unfold researchU ResearchAgent.process
  rcases env.researchHttp with ⟨raw | v⟩ | msg
  · cases h : env.parseJson raw <;> simp [h, create_state_update]
  · simp [create_state_update]
  · simp [create_state_update]

theorem edaU_slots (env : Env) (q : String) (ds : Dataset) :
    (edaU env q ds).research_results = none ∧
    (edaU env q ds).analysis_results = none ∧
    (edaU env q ds).final_story = none := by
  unfold edaU EDAAgent.process
  cases h1 : (runS1 env q ds).dataset.sample_df <;>
    cases h2 : env.edaFault <;> simp [h1, h2, create_state_update]

theorem analysisU_slots (env : Env) (q : String) (ds : Dataset) :
    (analysisU env q ds).research_results = none ∧
    (analysisU env q ds).eda_results = none ∧
    (analysisU env q ds).final_story = none := by
  unfold analysisU analysisR AnalystAgent.process
  cases h1 : (runS3 env q ds).dataset.sample_df with
  | none => simp [h1, create_state_update]
  | some sample =>
      cases h2 : (runS3 env q ds).eda_results with
      | none => simp [h1, h2, create_state_update]
      | some eda =>
          rcases h3 : env.analysisHttp with ⟨raw | v⟩ | msg
          · cases h4 : env.analysisExec (percentFix (stripCodeFences raw)) <;>
              simp [h1, h2, h3, h4, create_state_update]
          · simp [h1, h2, h3, create_state_update]
          · simp [h1, h2, h3, create_state_update]

theorem storyU_slots (env : Env) (q : String) (ds : Dataset) :
    (storyU env q ds).research_results = none ∧
    (storyU env q ds).eda_results = none ∧
    (storyU env q ds).analysis_results = none := by
  unfold storyU DataStoryAgent.process
  cases h1 : (runS4 env q ds).eda_results with
  | none => simp [h1, create_state_update]
  | some eda =>
      cases h2 : (runS4 env q ds).research_results with
      | none => simp [h1, h2, create_state_update]
      | some r =>
          cases h3 : (runS4 env q ds).analysis_results with
          | none => simp [h1, h2, h3, create_state_update]
          | some a =>
              rcases h4 : env.storyHttp with ⟨raw | v⟩ | msg
              · cases h5 : env.parseJson raw <;> simp [h1, h2, h3, h4, h5, create_state_update]
              · simp [h1, h2, h3, h4, create_state_update]
              · simp [h1, h2, h3, h4, create_state_update]

theorem runS2_analysis_none (env : Env) (q : String) (ds : Dataset) :
    (runS2 env q ds).analysis_results = none := by
  unfold runS2
  by_cases h : env.researchFirst
  · rw [if_pos h]
    show mergeField (researchU env q ds).analysis_results
      (runS1 env q ds).analysis_results = none
    rw [(researchU_slots env q ds).2.1]; rfl
  · rw [if_neg h]
    show mergeField (edaU env q ds).analysis_results
      (runS1 env q ds).analysis_results = none
    rw [(edaU_slots env q ds).2.1]; rfl

theorem runS2_final_none (env : Env) (q : String) (ds : Dataset) :
    (runS2 env q ds).final_story = none := by
  unfold runS2
  by_cases h : env.researchFirst
  · rw [if_pos h]
    show mergeField (researchU env q ds).final_story
      (runS1 env q ds).final_story = none
    rw [(researchU_slots env q ds).2.2]; rfl
  · rw [if_neg h]
    show mergeField (edaU env q ds).final_story
      (runS1 env q ds).final_story = none
    rw [(edaU_slots env q ds).2.2]; rfl

theorem runS3_analysis_none (env : Env) (q : String) (ds : Dataset) :
    (runS3 env q ds).analysis_results = none := by
  unfold runS3
  by_cases h : env.researchFirst
  · rw [if_pos h]
    show mergeField (edaU env q ds).analysis_results
      (runS2 env q ds).analysis_results = none
    rw [(edaU_slots env q ds).2.1, runS2_analysis_none]; rfl
  · rw [if_neg h]
    show mergeField (researchU env q ds).analysis_results
      (runS2 env q ds).analysis_results = none
    rw [(researchU_slots env q ds).2.1, runS2_analysis_none]; rfl

theorem runS3_final_none (env : Env) (q : String) (ds : Dataset) :
    (runS3 env q ds).final_story = none := by
  unfold runS3
  by_cases h : env.researchFirst
  · rw [if_pos h]
    show mergeField (edaU env q ds).final_story
      (runS2 env q ds).final_story = none
    rw [(edaU_slots env q ds).2.2, runS2_final_none]; rfl
  · rw [if_neg h]
    show mergeField (researchU env q ds).final_story
      (runS2 env q ds).final_story = none
    rw [(researchU_slots env q ds).2.2, runS2_final_none]; rfl

theorem runS4_final_none (env : Env) (q : String) (ds : Dataset) :
    (runS4 env q ds).final_story = none := by
  show mergeField (analysisU env q ds).final_story
    (runS3 env q ds).final_story = none
  rw [(analysisU_slots env q ds).2.2, runS3_final_none]; rfl

theorem step01 (env : Env) (q : String) (ds : Dataset) :
    slotsPreserved (initial_state q ds) (runS1 env q ds) :=
  applyUpdate_preserves _ _ (Or.inr (Or.inl rfl)) (Or.inr (Or.inl rfl))
    (Or.inr (Or.inl rfl)) (Or.inr (Or.inl rfl))

theorem step12 (env : Env) (q : String) (ds : Dataset) :
    slotsPreserved (runS1 env q ds) (runS2 env q ds) := by
  unfold runS2
  by_cases h : env.researchFirst
  · rw [if_pos h]
    exact applyUpdate_preserves _ _ (Or.inr (Or.inr rfl))
      (Or.inl (researchU_slots env q ds).1)
      (Or.inl (researchU_slots env q ds).2.1)
      (Or.inl (researchU_slots env q ds).2.2)
  · rw [if_neg h]
    exact applyUpdate_preserves _ _ (Or.inl (edaU_slots env q ds).1)
      (Or.inr (Or.inr rfl))
      (Or.inl (edaU_slots env q ds).2.1)
      (Or.inl (edaU_slots env q ds).2.2)

theorem step23 (env : Env) (q : String) (ds : Dataset) :
    slotsPreserved (runS2 env q ds) (runS3 env q ds) := by
  unfold runS3
  by_cases h : env.researchFirst
  · have h2 : (runS2 env q ds).eda_results = none := by
      rw [runS2, if_pos h]
      show mergeField (researchU env q ds).eda_results
        (runS1 env q ds).eda_results = none
      rw [(researchU_slots env q ds).1]; rfl
    rw [if_pos h]
    exact applyUpdate_preserves _ _ (Or.inl (edaU_slots env q ds).1)
      (Or.inr (Or.inr h2))
      (Or.inl (edaU_slots env q ds).2.1)
      (Or.inl (edaU_slots env q ds).2.2)
  · have h2 : (runS2 env q ds).research_results = none := by
      rw [runS2, if_neg h]
      show mergeField (edaU env q ds).research_results
        (runS1 env q ds).research_results = none
      rw [(edaU_slots env q ds).1]; rfl
    rw [if_neg h]
    exact applyUpdate_preserves _ _ (Or.inr (Or.inr h2))
      (Or.inl (researchU_slots env q ds).1)
      (Or.inl (researchU_slots env q ds).2.1)
      (Or.inl (researchU_slots env q ds).2.2)

theorem step34 (env : Env) (q : String) (ds : Dataset) :
    slotsPreserved (runS3 env q ds) (runS4 env q ds) :=
  applyUpdate_preserves _ _ (Or.inl (analysisU_slots env q ds).1)
    (Or.inl (analysisU_slots env q ds).2.1)
    (Or.inr (Or.inr (runS3_analysis_none env q ds)))
    (Or.inl (analysisU_slots env q ds).2.2)

theorem step45 (env : Env) (q : String) (ds : Dataset) :
    slotsPreserved (runS4 env q ds) (runS5 env q ds) :=
  applyUpdate_preserves _ _ (Or.inl (storyU_slots env q ds).1)
    (Or.inl (storyU_slots env q ds).2.1)
    (Or.inl (storyU_slots env q ds).2.2)
    (Or.inr (Or.inr (runS4_final_none env q ds)))

theorem stateAt_step (env : Env) (q : String) (ds : Dataset) :
    ∀ n, slotsPreserved (stateAt env q ds n) (stateAt env q ds (n + 1))
  | 0 => step01 env q ds
  | 1 => step12 env q ds
  | 2 => step23 env q ds
  | 3 => step34 env q ds
  | 4 => step45 env q ds
  | _ + 5 => slotsPreserved_refl _

/-! ### Concrete fixtures for witnesses and counterexamples -/

/-- Engineered rounded correlation matrix (hundredths): the `x`/`y` pair
correlates at 0.90, everything else at 0.10, diagonal 1.00. -/
def corrW : String → String → Int := fun a b =>
  if a == b then 100
  else if (a == "x" && b == "y") || (a == "y" && b == "x") then 90
  else 10

/-- 100-row sample with three numeric columns and one categorical column,
as in the spec's deterministic-dataset test property. -/
def sampleW : Sample :=
  { rows := 100
    cols :=
      [ ⟨"x", .numeric, "float64", 100, 0⟩,
        ⟨"y", .numeric, "float64", 100, 0⟩,
        ⟨"z", .numeric, "float64", 100, 0⟩,
        ⟨"cat", .categorical, "object", 4, 0⟩ ]
    memUsage := 3200
    duplicateRows := 0
    corr := corrW
    describeStats :=
      [ ("x", ⟨"0.0", "1.0", "0.5"⟩),
        ("y", ⟨"0.0", "1.0", "0.5"⟩),
        ("z", ⟨"0.0", "1.0", "0.5"⟩) ] }

/-- Concrete dataset descriptor wrapping `sampleW`. -/
def dsW : Dataset :=
  ⟨"datasets/w.csv", "w.csv", ["x", "y", "z", "cat"], some sampleW⟩

/-- A fully successful oracle environment: every completion succeeds, the
generated code runs and leaves one open figure, nothing disconnects. -/
def envW : Env :=
  { parseJson := fun _ => some (.obj [("summary", .str "ok")])
    researchHttp := .ok (.textContent "research json")
    edaFault := none
    analysisHttp := .ok (.textContent "print(1)")
    analysisExec := fun _ => .execOk (some (.obj [("plot", .str "abc123")])) 1
    storyHttp := .ok (.textContent "story json")
    figTs := "20250101_000000"
    ts := fun n => n
    researchFirst := true
    baseUrl := "http://localhost:8000/"
    workflowFault := none
    disconnectAt := none }

/-- `envW` with a failing research completion call (timeout / non-2xx). -/
def envC2 : Env :=
  { envW with researchHttp := .fail "boom" }

/-! ### Claims -/

/-- **C5.** Across every sequence of stage updates within one pipeline
run, each result slot (`research_results`, `eda_results`,
`analysis_results`, `final_story`), once set, is never cleared and never
overwritten with a different value, and the history length never
decreases: every later state of the run preserves every earlier state's
slots and history length. -/
theorem c5_slots_monotone (env : Env) (q : String) (ds : Dataset)
    (i j : Nat) (hij : i ≤ j) :
    slotsPreserved (stateAt env q ds i) (stateAt env q ds j) := by
  induction j, hij using Nat.le_induction with
  | base => exact slotsPreserved_refl _
  | succ j hij ih => exact slotsPreserved_trans ih (stateAt_step env q ds j)

/-- Witness for C5: the invariant across the whole concrete run. -/
theorem c5_slots_monotone_witness :
    0 ≤ 5 ∧ slotsPreserved (stateAt envW "growth" dsW 0) (stateAt envW "growth" dsW 5) :=
  ⟨by decide, c5_slots_monotone envW "growth" dsW 0 5 (by decide)⟩

/-- **C4.** Every internal fault inside a stage agent's work — the
completion call raising (timeout/non-2xx), or any other exception caught
by the outer handler — makes `process` return normally with the standard
error-marker update (`error` slot set to `"<Stage> failed: <e>"`, one
history entry appended), instead of propagating; and no stage fault
aborts the scheduler: every run still yields all five node events. -/
theorem c4_faults_become_error_markers
    (pj : String → Option Val) (execO : String → ExecOutcome)
    (m figTs : String) (ts : Nat) (st : AgentState) (sample : Sample)
    (eda : EdaResults) (rv : Val) (ap : AnalysisPayload)
    (env : Env) (q : String) (ds : Dataset) :
    (ResearchAgent.process pj (.fail m) ts st).1 =
      create_state_update "research" ts
        (.errorOut ("Research failed: " ++ m)) st ∧
    EDAAgent.process (some m) ts
        { st with dataset := { st.dataset with sample_df := some sample } } =
      create_state_update "eda" ts (.errorOut ("EDA failed: " ++ m))
        { st with dataset := { st.dataset with sample_df := some sample } } ∧
    (AnalystAgent.process execO (.fail m) figTs ts
        { st with dataset := { st.dataset with sample_df := some sample },
                  eda_results := some eda }).update =
      create_state_update "analysis" ts
        (.errorOut ("Analysis failed: " ++ m))
        { st with dataset := { st.dataset with sample_df := some sample },
                  eda_results := some eda } ∧
    (DataStoryAgent.process pj (.fail m) ts
        { st with eda_results := some eda, research_results := some rv,
                  analysis_results := some ap }).1 =
      create_state_update "story" ts
        (.errorOut ("Story generation failed: " ++ m))
        { st with eda_results := some eda, research_results := some rv,
                  analysis_results := some ap } ∧
    (runEvents env q ds).length = 5 := by
  refine ⟨rfl, rfl, rfl, rfl, ?_⟩
  unfold runEvents
  cases env.researchFirst <;> rfl

/-- **C9.** When the research completion's content is a string that fails
to parse as JSON, the `research_results` slot is set to
`{"summary": <raw text>}`, and exactly one completion request was issued
(no automatic retry). -/
theorem c9_parse_fallback (pj : String → Option Val) (raw : String)
    (ts : Nat) (st : AgentState) (h : pj raw = none) :
    (ResearchAgent.process pj (.ok (.textContent raw)) ts st).1.research_results =
      some (.obj [("summary", .str raw)]) ∧
    (ResearchAgent.process pj (.ok (.textContent raw)) ts st).2 = 1 := by
  unfold ResearchAgent.process
  simp [h, create_state_update]

/-- Witness for C9 on a concrete non-JSON response. -/
theorem c9_parse_fallback_witness :
    (fun _ : String => (none : Option Val)) "plain text answer" = none ∧
    ((ResearchAgent.process (fun _ => none) (.ok (.textContent "plain text answer")) 1
        (initial_state "growth" dsW)).1.research_results =
      some (.obj [("summary", .str "plain text answer")]) ∧
    (ResearchAgent.process (fun _ => none) (.ok (.textContent "plain text answer")) 1
        (initial_state "growth" dsW)).2 = 1) :=
  ⟨rfl, c9_parse_fallback (fun _ => none) "plain text answer" 1 (initial_state "growth" dsW) rfl⟩

theorem csu_last_entry (a : String) (ts : Nat) (out : SlotOutput) (s : AgentState) :
    (create_state_update a ts out s).history.getLast? = some ⟨a, ts, out⟩ :=
  List.getLast?_concat _

theorem storyU_last_agent (env : Env) (q : String) (ds : Dataset) :
    ((storyU env q ds).history.getLast?).map HistoryEntry.agent = some "story" := by
  unfold storyU DataStoryAgent.process
  cases h1 : (runS4 env q ds).eda_results with
  | none => simp [h1, create_state_update, List.getLast?_concat]
  | some eda =>
      cases h2 : (runS4 env q ds).research_results with
      | none => simp [h1, h2, create_state_update, List.getLast?_concat]
      | some r =>
          cases h3 : (runS4 env q ds).analysis_results with
          | none => simp [h1, h2, h3, create_state_update, List.getLast?_concat]
          | some a =>
              rcases h4 : env.storyHttp with ⟨raw | v⟩ | msg
              · cases h5 : env.parseJson raw <;>
                  simp [h1, h2, h3, h4, h5, create_state_update, List.getLast?_concat]
              · simp [h1, h2, h3, h4, create_state_update, List.getLast?_concat]
              · simp [h1, h2, h3, h4, create_state_update, List.getLast?_concat]

theorem analysisU_last_agent (env : Env) (q : String) (ds : Dataset) :
    ((analysisU env q ds).history.getLast?).map HistoryEntry.agent = some "analysis" := by
  unfold analysisU analysisR AnalystAgent.process
  cases h1 : (runS3 env q ds).dataset.sample_df with
  | none => simp [h1, create_state_update, List.getLast?_concat]
  | some sample =>
      cases h2 : (runS3 env q ds).eda_results with
      | none => simp [h1, h2, create_state_update, List.getLast?_concat]
      | some eda =>
          rcases h3 : env.analysisHttp with ⟨raw | v⟩ | msg
          · cases h4 : env.analysisExec (percentFix (stripCodeFences raw)) <;>
              simp [h1, h2, h3, h4, create_state_update, List.getLast?_concat]
          · simp [h1, h2, h3, create_state_update, List.getLast?_concat]
          · simp [h1, h2, h3, create_state_update, List.getLast?_concat]

/-- **C3 (amended).** Every fault of the model-generated analysis code —
syntax error or runtime exception — yields a SUCCESSFUL stage update
setting `analysis_results` (not the error slot) to a payload with the
code text, the fault's error message and status `"failed"`; the message
is the exception's text: for syntax faults it carries the non-empty
`"Syntax error: "` prefix, for runtime faults it is `str(e)` (possibly
specialised for formatting errors), WHICH MAY BE EMPTY when the raised
exception has empty text. The dependent story stage still runs and
appends its history entry in every run. -/
theorem c3_code_fault_is_successful_result
    (raw msg figTs : String) (ts n : Nat) (st : AgentState) (sample : Sample)
    (eda : EdaResults) (env : Env) (q : String) (ds : Dataset) :
    (AnalystAgent.process (fun _ => .execSyntaxError msg n)
        (.ok (.textContent raw)) figTs ts
        { st with dataset := { st.dataset with sample_df := some sample },
                  eda_results := some eda }).update =
      create_state_update "analysis" ts
        (.analysisOut { error := some ("Syntax error: " ++ msg),
                        code := percentFix (stripCodeFences raw),
                        status := "failed" })
        { st with dataset := { st.dataset with sample_df := some sample },
                  eda_results := some eda } ∧
    (AnalystAgent.process (fun _ => .execError msg n)
        (.ok (.textContent raw)) figTs ts
        { st with dataset := { st.dataset with sample_df := some sample },
                  eda_results := some eda }).update =
      create_state_update "analysis" ts
        (.analysisOut { error := some (runtimeErrorMsg msg),
                        code := percentFix (stripCodeFences raw),
                        status := "failed" })
        { st with dataset := { st.dataset with sample_df := some sample },
                  eda_results := some eda } ∧
    0 < ("Syntax error: " ++ msg).length ∧
    ((storyU env q ds).history.getLast?).map HistoryEntry.agent = some "story" ∧
    (runEvents env q ds).getLast? = some ("story", storyU env q ds) := by
  refine ⟨rfl, rfl, ?_, storyU_last_agent env q ds, ?_⟩
  · rw [String.length_append]
    have : (0 : Nat) < "Syntax error: ".length := by decide
    omega
  · unfold runEvents
    cases env.researchFirst <;> rfl

/-- Counterexample to C3 as stated: a runtime exception with empty text
(`raise Exception()` has `str(e) = ""`) produces a failed payload whose
error message is the EMPTY string, not a non-empty one. -/
theorem c3_counterexample_empty_message :
    (AnalystAgent.process (fun _ => .execError "" 0)
        (.ok (.textContent "raise Exception()")) "20250101_000000" 3
        { initial_state "growth" dsW with
            eda_results := some (edaResultsOf sampleW) }).update.analysis_results =
      some { insights := none, error := some "", code := "raise Exception()",
             status := "failed", saved_figures := none, figure_urls := none } := by
  rfl

/-- **C6 (amended).** The Analyst's code-execution step closes all open
matplotlib figures only on the SUCCESS path (`plt.close('all')` before
the success payload is returned); on both fault paths — syntax error and
runtime error — the method returns with the figures opened by the
generated code still open. -/
theorem c6_figures_closed_only_on_success
    (raw msg figTs : String) (ts n : Nat) (rv : Option Val)
    (st : AgentState) (sample : Sample) (eda : EdaResults) :
    (AnalystAgent.process (fun _ => .execOk rv n)
        (.ok (.textContent raw)) figTs ts
        { st with dataset := { st.dataset with sample_df := some sample },
                  eda_results := some eda }).openFiguresAfter = 0 ∧
    (AnalystAgent.process (fun _ => .execSyntaxError msg n)
        (.ok (.textContent raw)) figTs ts
        { st with dataset := { st.dataset with sample_df := some sample },
                  eda_results := some eda }).openFiguresAfter = n ∧
    (AnalystAgent.process (fun _ => .execError msg n)
        (.ok (.textContent raw)) figTs ts
        { st with dataset := { st.dataset with sample_df := some sample },
                  eda_results := some eda }).openFiguresAfter = n :=
  ⟨rfl, rfl, rfl⟩

/-- Counterexample to C6 as stated: a runtime fault with one figure open
returns with that figure still open (1, not 0) — the resources are NOT
released on this exit path. -/
theorem c6_counterexample_figure_leak :
    (AnalystAgent.process (fun _ => .execError "boom" 1)
        (.ok (.textContent "plt.figure()")) "20250101_000000" 3
        { initial_state "growth" dsW with
            eda_results := some (edaResultsOf sampleW) }).openFiguresAfter = 1 := by
  rfl

theorem sentinelCount_dataMap (events : List (String × StateUpdate)) :
    sentinelCount (events.map (fun e => Chunk.data e.1 e.2)) = 0 := by
  induction events with
  | nil => rfl
  | cons e rest ih =>
      simp [sentinelCount, List.countP_cons, Chunk.isDone] at ih ⊢
      try exact ih

theorem ew_sentinel_count (events : List (String × StateUpdate))
    (faultAt : Option (Nat × String)) :
    sentinelCount (execute_workflow events faultAt) = 1 := by
  rcases faultAt with _ | ⟨k, msg⟩
  · unfold execute_workflow
    rw [sentinelCount, List.countP_append]
    have h := sentinelCount_dataMap events
    rw [sentinelCount] at h
    rw [h]
    rfl
  · unfold execute_workflow
    rw [sentinelCount, List.countP_append]
    have h := sentinelCount_dataMap (events.take k)
    rw [sentinelCount] at h
    rw [h]
    rfl

theorem ew_last (events : List (String × StateUpdate))
    (faultAt : Option (Nat × String)) :
    (execute_workflow events faultAt).getLast? = some .done := by
  rcases faultAt with _ | ⟨k, msg⟩
  · exact List.getLast?_concat _
  · have h : execute_workflow events (some (k, msg)) =
        ((events.take k).map (fun e => Chunk.data e.1 e.2) ++ [Chunk.errData msg])
          ++ [Chunk.done] := by
      unfold execute_workflow
      rw [List.append_assoc]
      rfl
    rw [h]
    exact List.getLast?_concat _

theorem eg_last (baseUrl : String) (chunks : List Chunk) (dis : Option Nat) :
    (event_generator baseUrl chunks dis).getLast? = some .done := by
  have h : event_generator baseUrl chunks dis =
      ((egLoop baseUrl dis none chunks).1 ++
        (match (egLoop baseUrl dis none chunks).2 with
          | some v => [Chunk.storyData v]
          | none => [])) ++ [Chunk.done] := rfl
  rw [h]
  exact List.getLast?_concat _

/-- **C1 (amended).** `execute_workflow`'s own stream always contains
exactly one sentinel event, and it is the last event — on success, on a
mid-stream fault, for every run. The caller-facing `event_generator`
always terminates with a sentinel as well, but it FORWARDS the inner
sentinel and then appends its own in its `finally` block, so the stream
the caller receives is not limited to a single sentinel (see the
counterexample). -/
theorem c1_sentinel_terminated (env : Env) (q : String) (ds : Dataset)
    (events : List (String × StateUpdate)) (faultAt : Option (Nat × String))
    (baseUrl : String) (chunks : List Chunk) (dis : Option Nat) :
    sentinelCount (execute_workflow events faultAt) = 1 ∧
    (execute_workflow events faultAt).getLast? = some .done ∧
    sentinelCount (workflowStream env q ds) = 1 ∧
    (workflowStream env q ds).getLast? = some .done ∧
    (event_generator baseUrl chunks dis).getLast? = some .done ∧
    (callerStream env q ds).getLast? = some .done :=
  ⟨ew_sentinel_count events faultAt, ew_last events faultAt,
   ew_sentinel_count _ _, ew_last _ _,
   eg_last baseUrl chunks dis, eg_last _ _ _⟩

/-- Counterexample to C1 as stated: on a successful, never-disconnected
run the caller receives TWO sentinel events — the forwarded inner one at
position 5 and the `finally` one last — with the formatted-story data
event between them, so the sentinel is neither unique nor free of
trailing data events. -/
theorem c1_counterexample_two_sentinels :
    sentinelCount (callerStream envW "growth" dsW) = 2 ∧
    ((callerStream envW "growth" dsW).drop 5).map Chunk.isDone =
      [true, false, true] := by
  exact ⟨rfl, rfl⟩

/-- **C2 (amended).** Dependents of an errored stage are NOT skipped: the
compiled graph wires only unconditional edges (the conditional planner
routing is commented out at source lines 645-650), so in EVERY run — in
particular those where a dependency's update set the error marker — the
analysis and story nodes still execute, append their history entries,
and appear in the event sequence. -/
theorem c2_dependents_always_run (env : Env) (q : String) (ds : Dataset) :
    ((analysisU env q ds).history.getLast?).map HistoryEntry.agent = some "analysis" ∧
    ((storyU env q ds).history.getLast?).map HistoryEntry.agent = some "story" ∧
    (runEvents env q ds).map Prod.fst =
      (if env.researchFirst then ["start", "research", "eda", "analysis", "story"]
       else ["start", "eda", "research", "analysis", "story"]) := by
  refine ⟨analysisU_last_agent env q ds, storyU_last_agent env q ds, ?_⟩
  unfold runEvents
  cases env.researchFirst <;> rfl

/-- Counterexample to C2 as stated: with the research stage failing
(error marker `"Research failed: boom"` set), its transitive dependents
still run — the final history contains entries authored by the analysis
node (twice, through the doubled reducer contribution) and the event
list still contains the analysis and story events. -/
theorem c2_counterexample_no_skip :
    (researchU envC2 "growth" dsW).error = some "Research failed: boom" ∧
    ((runS5 envC2 "growth" dsW).history.countP
      (fun e => e.agent == "analysis")) = 2 ∧
    (runEvents envC2 "growth" dsW).map Prod.fst =
      ["start", "research", "eda", "analysis", "story"] := by
  exact ⟨rfl, rfl, rfl⟩

/-! ### Correlation-list lemmas for C8 and C10 -/

theorem corrRow_mem (corr : String → String → Int) (c1 : String) :
    ∀ (l : List String) (b : String), b ∈ l → c1 ≠ b →
      50 < (corr c1 b).natAbs →
      (⟨c1, b, corr c1 b⟩ : CorrEntry) ∈ corrRow corr c1 l := by
  intro l
  induction l with
  | nil => intro b hb; cases hb
  | cons c2 rest ih =>
      intro b hb hne hr
      rcases List.mem_cons.mp hb with rfl | hb
      · unfold corrRow
        rw [if_pos ⟨hne, hr⟩]
        exact List.mem_append_left _ (List.mem_singleton.mpr rfl)
      · unfold corrRow
        exact List.mem_append_right _ (ih b hb hne hr)

theorem corrEntriesAux_mem (corr : String → String → Int) (all : List String)
    {e : CorrEntry} :
    ∀ (l : List String) (c1 : String), c1 ∈ l → e ∈ corrRow corr c1 all →
      e ∈ corrEntriesAux corr all l := by
  intro l
  induction l with
  | nil => intro c1 hc; cases hc
  | cons d rest ih =>
      intro c1 hc he
      rcases List.mem_cons.mp hc with rfl | hc
      · exact List.mem_append_left _ he
      · exact List.mem_append_right _ (ih c1 hc he)

theorem corrEntries_mem (corr : String → String → Int) (ncols : List String)
    (a b : String) (ha : a ∈ ncols) (hb : b ∈ ncols) (hab : a ≠ b)
    (hr : 50 < (corr a b).natAbs) :
    (⟨a, b, corr a b⟩ : CorrEntry) ∈ corrEntries corr ncols :=
  corrEntriesAux_mem corr ncols ncols a ha (corrRow_mem corr a ncols b hb hab hr)

/-- Does this entry pair the (unordered) columns `a`,`b`? -/
def pairMatchB (a b : String) (e : CorrEntry) : Bool :=
  (e.c1 == a && e.c2 == b) || (e.c1 == b && e.c2 == a)

theorem corrRow_countP_a (corr : String → String → Int) (a b : String)
    (hab : a ≠ b) (hr : 50 < (corr a b).natAbs) :
    ∀ l : List String,
      (corrRow corr a l).countP (pairMatchB a b) = l.count b := by
  intro l
  induction l with
  | nil => rfl
  | cons c2 rest ih =>
      unfold corrRow
      rw [List.countP_append, ih, List.count_cons]
      by_cases hc : c2 = b
      · subst hc
        rw [if_pos ⟨hab, hr⟩]
        simp [pairMatchB, List.countP_cons]
        exact Nat.add_comm 1 _
      · have hz :
            (if a ≠ c2 ∧ 50 < (corr a c2).natAbs
              then [(⟨a, c2, corr a c2⟩ : CorrEntry)] else []).countP
                (pairMatchB a b) = 0 := by
          split
          · simp [pairMatchB, List.countP_cons, hc, hab]
          · rfl
        rw [hz]
        simp [Ne.symm hc]
        try exact hc

theorem corrRow_countP_b (corr : String → String → Int) (a b : String)
    (hab : a ≠ b) (hr : 50 < (corr b a).natAbs) :
    ∀ l : List String,
      (corrRow corr b l).countP (pairMatchB a b) = l.count a := by
  intro l
  induction l with
  | nil => rfl
  | cons c2 rest ih =>
      unfold corrRow
      rw [List.countP_append, ih, List.count_cons]
      by_cases hc : c2 = a
      · subst hc
        rw [if_pos ⟨Ne.symm hab, hr⟩]
        simp [pairMatchB, List.countP_cons, Ne.symm hab]
        exact Nat.add_comm 1 _
      · have hz :
            (if b ≠ c2 ∧ 50 < (corr b c2).natAbs
              then [(⟨b, c2, corr b c2⟩ : CorrEntry)] else []).countP
                (pairMatchB a b) = 0 := by
          split
          · simp [pairMatchB, List.countP_cons, hc, Ne.symm hab]
          · rfl
        rw [hz]
        simp [Ne.symm hc]
        try exact hc

theorem corrRow_countP_other (corr : String → String → Int) (a b c1 : String)
    (hca : c1 ≠ a) (hcb : c1 ≠ b) :
    ∀ l : List String,
      (corrRow corr c1 l).countP (pairMatchB a b) = 0 := by
  intro l
  induction l with
  | nil => rfl
  | cons c2 rest ih =>
      unfold corrRow
      rw [List.countP_append, ih]
      have hz :
          (if c1 ≠ c2 ∧ 50 < (corr c1 c2).natAbs
            then [(⟨c1, c2, corr c1 c2⟩ : CorrEntry)] else []).countP
              (pairMatchB a b) = 0 := by
        split
        · simp [pairMatchB, List.countP_cons, hca, hcb]
        · rfl
      rw [hz]

theorem corrEntriesAux_countP (corr : String → String → Int)
    (a b : String) (hab : a ≠ b)
    (hra : 50 < (corr a b).natAbs) (hrb : 50 < (corr b a).natAbs)
    (all : List String) :
    ∀ l : List String,
      (corrEntriesAux corr all l).countP (pairMatchB a b) =
        l.count a * all.count b + l.count b * all.count a := by
  intro l
  induction l with
  | nil => simp [corrEntriesAux]
  | cons c1 rest ih =>
      unfold corrEntriesAux
      rw [List.countP_append, ih, List.count_cons, List.count_cons]
      by_cases hca : c1 = a
      · subst hca
        rw [corrRow_countP_a corr c1 b hab hra all]
        simp [hab, Ne.symm hab]
        ring
      · by_cases hcb : c1 = b
        · subst hcb
          rw [corrRow_countP_b corr a c1 hab hrb all]
          simp [hca]
          ring
        · rw [corrRow_countP_other corr a b c1 hca hcb all]
          simp [hca, hcb]

theorem eda_correlations_of (s' : Sample) :
    (edaResultsOf s').correlations =
      if 1 < (numericColNames s').length
        then some (corrEntries s'.corr (numericColNames s')) else none := rfl

theorem eda_correlations_presence (s' : Sample) :
    ((edaResultsOf s').correlations).isSome = true ↔
      2 ≤ (numericColNames s').length := by
  rw [eda_correlations_of s']
  by_cases h : 1 < (numericColNames s').length
  · rw [if_pos h]
    simp only [Option.isSome_some]
    exact ⟨fun _ => h, fun _ => trivial⟩
  · rw [if_neg h]
    simp only [Option.isSome_none]
    exact ⟨fun hf => absurd hf Bool.false_ne_true, fun h2 => absurd h2 h⟩

theorem one_lt_length_of_mem_ne {α : Type} {l : List α} {a b : α}
    (ha : a ∈ l) (hb : b ∈ l) (hab : a ≠ b) : 1 < l.length := by
  cases l with
  | nil => cases ha
  | cons x rest =>
      cases rest with
      | nil =>
          rcases List.mem_singleton.mp ha with rfl
          rcases List.mem_singleton.mp hb with rfl
          exact absurd rfl hab
      | cons y rest2 =>
          simp only [List.length_cons]
          omega

/-- **C8.** For every sample with at least two numeric columns, the EDA
result carries a `correlations` list containing every ordered pair of
distinct numeric columns whose rounded correlation has absolute value
strictly above 0.5 (in hundredths: above 50); the EDA stage computes it
as a pure function of the sample alone (`edaResultsOf`), with no
completion-call oracle in its signature: the resulting slot value is
`edaResultsOf s` for every state carrying the sample. -/
theorem c8_strong_pairs_reported (s : Sample) (a b : String)
    (hab : a ≠ b) (ha : a ∈ numericColNames s) (hb : b ∈ numericColNames s)
    (hr : 50 < ((s.corr a b).natAbs)) :
    (edaResultsOf s).correlations = some (corrEntries s.corr (numericColNames s)) ∧
    (⟨a, b, s.corr a b⟩ : CorrEntry) ∈ corrEntries s.corr (numericColNames s) ∧
    (∀ (ts : Nat) (st : AgentState), st.dataset.sample_df = some s →
      EDAAgent.process none ts st =
        create_state_update "eda" ts (.edaOut (edaResultsOf s)) st) := by
  refine ⟨?_, corrEntries_mem s.corr (numericColNames s) a b ha hb hab hr, ?_⟩
  · rw [eda_correlations_of s, if_pos (one_lt_length_of_mem_ne ha hb hab)]
  · intro ts st hst
    unfold EDAAgent.process
    rw [hst]

/-- Witness for C8: the engineered 100-row sample (3 numeric + 1
categorical column, `x`/`y` correlation 0.90) reports the `x`,`y` pair. -/
theorem c8_strong_pairs_reported_witness :
    (("x" : String) ≠ "y" ∧ "x" ∈ numericColNames sampleW ∧
      "y" ∈ numericColNames sampleW ∧ 50 < ((sampleW.corr "x" "y").natAbs)) ∧
    ((edaResultsOf sampleW).correlations =
        some (corrEntries sampleW.corr (numericColNames sampleW)) ∧
      (⟨"x", "y", sampleW.corr "x" "y"⟩ : CorrEntry) ∈
        corrEntries sampleW.corr (numericColNames sampleW) ∧
      (∀ (ts : Nat) (st : AgentState), st.dataset.sample_df = some sampleW →
        EDAAgent.process none ts st =
          create_state_update "eda" ts (.edaOut (edaResultsOf sampleW)) st)) :=
  ⟨⟨by decide, by decide, by decide, by decide⟩,
   c8_strong_pairs_reported sampleW "x" "y" (by decide) (by decide) (by decide) (by decide)⟩

/-- **C10.** For a sample whose numeric column names are distinct and
whose rounded correlation matrix is symmetric, every unordered pair of
distinct numeric columns with rounded correlation above 0.5 in absolute
value appears exactly twice in the correlations list — once per ordering
— and (for every sample) the `correlations` key is present in the EDA
result if and only if the sample has at least two numeric columns. -/
theorem c10_pair_both_orders (s : Sample) (a b : String)
    (hnd : (numericColNames s).Nodup)
    (hsym : ∀ x y, s.corr x y = s.corr y x)
    (ha : a ∈ numericColNames s) (hb : b ∈ numericColNames s)
    (hab : a ≠ b) (hr : 50 < (s.corr a b).natAbs) :
    ((corrEntries s.corr (numericColNames s)).countP (pairMatchB a b)) = 2 ∧
    (edaResultsOf s).correlations = some (corrEntries s.corr (numericColNames s)) ∧
    (∀ s' : Sample, ((edaResultsOf s').correlations).isSome = true ↔
      2 ≤ (numericColNames s').length) := by
  refine ⟨?_, ?_, eda_correlations_presence⟩
  · have hrb : 50 < (s.corr b a).natAbs := by rw [hsym b a]; exact hr
    unfold corrEntries
    rw [corrEntriesAux_countP s.corr a b hab hr hrb (numericColNames s)
      (numericColNames s)]
    rw [List.count_eq_one_of_mem hnd ha, List.count_eq_one_of_mem hnd hb]
  · rw [eda_correlations_of s, if_pos (one_lt_length_of_mem_ne ha hb hab)]

/-- `sampleW` with every off-diagonal correlation at 0.90 (trivially
symmetric), for the C10 witness. -/
def sampleW2 : Sample :=
  { sampleW with corr := fun _ _ => 90 }

/-- Witness for C10: both orderings of the `x`,`y` pair appear, exactly
twice in total. -/
theorem c10_pair_both_orders_witness :
    ((numericColNames sampleW2).Nodup ∧ ("x" : String) ≠ "y" ∧
      "x" ∈ numericColNames sampleW2 ∧ "y" ∈ numericColNames sampleW2 ∧
      50 < (sampleW2.corr "x" "y").natAbs) ∧
    (((corrEntries sampleW2.corr (numericColNames sampleW2)).countP
        (pairMatchB "x" "y")) = 2 ∧
      (edaResultsOf sampleW2).correlations =
        some (corrEntries sampleW2.corr (numericColNames sampleW2)) ∧
      (∀ s' : Sample, ((edaResultsOf s').correlations).isSome = true ↔
        2 ≤ (numericColNames s').length)) :=
  ⟨⟨by decide, by decide, by decide, by decide, by decide⟩,
   c10_pair_both_orders sampleW2 "x" "y" (by decide) (fun _ _ => rfl)
     (by decide) (by decide) (by decide) (by decide)⟩

/-- Modelled from the spec's words for C7: "the three entries of greatest
absolute correlation value" — descending stable sort by `|r|`, take 3
(this is also exactly what the Story agent computes at lines 524-528;
the Analyst does not). -/
def specStrongestThree (l : List CorrEntry) : List CorrEntry :=
  (sortByAbsDesc l).take 3

/-- **C7 (amended).** Whenever the EDA correlation list is non-empty, the
Analyst's code-generation prompt embeds the EDA summary, one stats line
per column, and the FIRST three entries of the correlations list in list
order (`[:3]`) — which, because the list is built in column order, are
not necessarily the three entries of greatest absolute value. -/
theorem c7_prompt_embeds_first_three (query : String) (eda : EdaResults)
    (cols : List ColInfo) (l : List CorrEntry)
    (hc : eda.correlations = some l) (hne : l ≠ []) :
    strHas (codeGenPrompt query eda cols) eda.summary = true ∧
    (∀ c ∈ cols,
      strHas (codeGenPrompt query eda cols) (columnInfoLine eda c) = true) ∧
    (∀ e ∈ l.take 3,
      strHas (codeGenPrompt query eda cols) (corrLine e) = true) := by
  have hprompt : codeGenPrompt query eda cols =
      promptHead query ++ eda.summary
        ++ "\n            \n            DataFrame columns:\n            "
        ++ joinLines (cols.map (columnInfoLine eda))
        ++ "\n            \n            "
        ++ correlationInfo eda
        ++ promptRequirements := rfl
  have hci : correlationInfo eda =
      "Notable correlations:\n" ++ joinLines ((l.take 3).map corrLine) := by
    unfold correlationInfo
    rw [hc]
    show (if l ≠ [] then
        "Notable correlations:\n" ++ joinLines ((l.take 3).map corrLine)
      else "") = _
    rw [if_pos hne]
  refine ⟨?_, ?_, ?_⟩
  · rw [hprompt]
    apply strHas_extendR
    apply strHas_extendR
    apply strHas_extendR
    apply strHas_extendR
    apply strHas_extendR
    apply strHas_extendL
    exact strHas_self _
  · intro c hcmem
    rw [hprompt]
    apply strHas_extendR
    apply strHas_extendR
    apply strHas_extendR
    apply strHas_extendL
    exact strHas_joinLines (List.mem_map_of_mem _ hcmem)
  · intro e he
    rw [hprompt]
    apply strHas_extendR
    apply strHas_extendL
    rw [hci]
    apply strHas_extendL
    exact strHas_joinLines (List.mem_map_of_mem _ he)

/-- Six-entry correlation list in matrix order: the strongest pair
(`b`,`c` at 0.90) sits at positions 3 and 5, after the first three. -/
def corrListC7 : List CorrEntry :=
  [⟨"a", "b", 60⟩, ⟨"a", "c", 55⟩, ⟨"b", "a", 60⟩,
   ⟨"b", "c", 90⟩, ⟨"c", "a", 55⟩, ⟨"c", "b", 90⟩]

/-- A small EDA result carrying `corrListC7`. -/
def edaC7 : EdaResults :=
  { dataset_info := ⟨3, 3, 100, 0, 0⟩
    column_types := ⟨3, 0, 0, 0⟩
    columns := []
    numeric_stats := []
    column_list := ["a", "b", "c"]
    dtypes := []
    correlations := some corrListC7
    summary := "small summary" }

/-- A single column for the prompt's column section. -/
def colsC7 : List ColInfo := [⟨"a", .numeric, "int64", 3, 0⟩]

/-- Witness for the amended C7 on the concrete fixture. -/
theorem c7_prompt_embeds_first_three_witness :
    (edaC7.correlations = some corrListC7 ∧ corrListC7 ≠ []) ∧
    (strHas (codeGenPrompt "growth" edaC7 colsC7) edaC7.summary = true ∧
     (∀ c ∈ colsC7,
       strHas (codeGenPrompt "growth" edaC7 colsC7) (columnInfoLine edaC7 c) = true) ∧
     (∀ e ∈ corrListC7.take 3,
       strHas (codeGenPrompt "growth" edaC7 colsC7) (corrLine e) = true)) :=
  ⟨⟨rfl, by decide⟩,
   c7_prompt_embeds_first_three "growth" edaC7 colsC7 corrListC7 rfl (by decide)⟩

set_option maxRecDepth 100000 in
/-- Counterexample to C7 as stated: the strongest entry (`b`,`c` at 0.90)
is among the three of greatest absolute value, yet its rendered line does
not occur anywhere in the prompt — the prompt embeds the first three
entries instead. -/
theorem c7_counterexample_strongest_missing :
    (⟨"b", "c", 90⟩ : CorrEntry) ∈ specStrongestThree corrListC7 ∧
    strHas (codeGenPrompt "growth" edaC7 colsC7)
      (corrLine ⟨"b", "c", 90⟩) = false := by
  exact ⟨by decide, by decide⟩
